import Mathlib

/-!
Verification of `validate_dag_integrity.py`, a static checker that flags
top-level anti-patterns in Airflow DAG files.

The embedding mirrors the source:
* `Node` models the Python `ast` node classes the checker dispatches on.
  Per the Python AST grammar (ASDL), `Module.body` is a list of statement
  nodes; `Constant`, `Call` and `Name` are expression classes and occur only
  as the `value` of an `Expr` statement, never directly in `Module.body`.
  Nested statement positions (function/class bodies, loop bodies, `with`
  bodies, `try` bodies) are collapsed to a single child list because the
  checker never reads them; other per-class fields (import names, assignment
  targets, loop iterables, handlers) are omitted for the same reason.
* `issuesForNode` is the body of the `for node in tree.body` loop
  (lines 37-70): five `continue` guards followed by two independent
  flagging checks that each append one message.
* `check_file` models the whole per-file function, including the
  `SyntaxError` handler (the external parser is modelled as an
  `Except String Module` input) and the per-file log output.
* `runTarget` models the dispatch of `main` on the resolved target path;
  `main_run` adds the missing-argument guard.
-/

namespace ValidateDagIntegrity

/-- Python AST node classes involved in the checker dispatch.
`lineno` is the 1-based source line of the node. -/
inductive Node where
  | Import (lineno : Nat)
  | ImportFrom (lineno : Nat)
  | Assign (lineno : Nat)
  | FunctionDef (lineno : Nat) (body : List Node)
  | AsyncFunctionDef (lineno : Nat) (body : List Node)
  | ClassDef (lineno : Nat) (body : List Node)
  | Expr (lineno : Nat) (value : Node)
  | With (lineno : Nat) (body : List Node)
  | For (lineno : Nat) (body : List Node)
  | While (lineno : Nat) (body : List Node)
  | Try (lineno : Nat) (body : List Node)
  | If (lineno : Nat) (body : List Node)
  | AugAssign (lineno : Nat)
  | Constant (lineno : Nat)
  | Call (lineno : Nat)
  | Name (lineno : Nat)

/-- `node.lineno` (every concrete `ast` node carries one). -/
def Node.lineno : Node → Nat
  | .Import n => n
  | .ImportFrom n => n
  | .Assign n => n
  | .FunctionDef n _ => n
  | .AsyncFunctionDef n _ => n
  | .ClassDef n _ => n
  | .Expr n _ => n
  | .With n _ => n
  | .For n _ => n
  | .While n _ => n
  | .Try n _ => n
  | .If n _ => n
  | .AugAssign n => n
  | .Constant n => n
  | .Call n => n
  | .Name n => n

/-- `type(node).__name__`: the Python class name of the node. -/
def Node.typeName : Node → String
  | .Import _ => "Import"
  | .ImportFrom _ => "ImportFrom"
  | .Assign _ => "Assign"
  | .FunctionDef _ _ => "FunctionDef"
  | .AsyncFunctionDef _ _ => "AsyncFunctionDef"
  | .ClassDef _ _ => "ClassDef"
  | .Expr _ _ => "Expr"
  | .With _ _ => "With"
  | .For _ _ => "For"
  | .While _ _ => "While"
  | .Try _ _ => "Try"
  | .If _ _ => "If"
  | .AugAssign _ => "AugAssign"
  | .Constant _ => "Constant"
  | .Call _ => "Call"
  | .Name _ => "Name"

/-- `isinstance(node, ast.Import | ast.ImportFrom)` (line 39). -/
def Node.isImportOrFrom : Node → Bool
  | .Import _ => true
  | .ImportFrom _ => true
  | _ => false

/-- `isinstance(node, ast.Assign)` (line 43). -/
def Node.isAssign : Node → Bool
  | .Assign _ => true
  | _ => false

/-- `isinstance(node, ast.FunctionDef | ast.AsyncFunctionDef | ast.ClassDef)`
(line 47). -/
def Node.isDefStmt : Node → Bool
  | .FunctionDef _ _ => true
  | .AsyncFunctionDef _ _ => true
  | .ClassDef _ _ => true
  | _ => false

/-- `isinstance(node, ast.Constant)`. -/
def Node.isConstant : Node → Bool
  | .Constant _ => true
  | _ => false

/-- `isinstance(node, ast.Expr) and isinstance(node.value, ast.Constant)`
(line 51). -/
def Node.isConstExprStmt : Node → Bool
  | .Expr _ v => v.isConstant
  | _ => false

/-- `isinstance(node, ast.With)` (line 55). -/
def Node.isWithStmt : Node → Bool
  | .With _ _ => true
  | _ => false

/-- `isinstance(node, ast.Expr)` (line 59): the first flagging condition. -/
def Node.isExprStmt : Node → Bool
  | .Expr _ _ => true
  | _ => false

/-- `isinstance(node, ast.Call | ast.For | ast.While | ast.Try)` (line 66):
the second flagging condition. -/
def Node.isCallForWhileTry : Node → Bool
  | .Call _ => true
  | .For _ _ => true
  | .While _ _ => true
  | .Try _ _ => true
  | _ => false

/-- The message appended at lines 60-63. -/
def exprIssueMsg (lineno : Nat) : String :=
  "Line " ++ toString lineno ++
    ": Top-level expression found. Ensure this doesn\x27t perform I/O."

/-- The message appended at lines 67-70; `{}` holds `type(node).__name__`. -/
def cfcIssueMsg (node : Node) : String :=
  "Line " ++ toString node.lineno ++ ": Top-level " ++ node.typeName ++
    " found. Verify this is safe for the Scheduler."

/-- One iteration of the `for node in tree.body` loop (lines 37-70): the
issues this node contributes. The five `continue` guards come first; the
two flagging `if`s are independent (not chained by `elif`), so each may
append its message. -/
def issuesForNode (node : Node) : List String :=
  if node.isImportOrFrom then []
  else if node.isAssign then []
  else if node.isDefStmt then []
  else if node.isConstExprStmt then []
  else if node.isWithStmt then []
  else
    (if node.isExprStmt then [exprIssueMsg node.lineno] else []) ++
    (if node.isCallForWhileTry then [cfcIssueMsg node] else [])

/-- `ast.Module`: the parsed tree; `body` is its list of top-level
statements. -/
structure Module where
  body : List Node

/-- The `issues` list accumulated by the loop over `tree.body`
(lines 35-70). -/
def check_file_issues (tree : Module) : List String :=
  tree.body.foldl (fun issues node => issues ++ issuesForNode node) []

/-- Severity of a `loguru` logging call used by the script. -/
inductive LogLevel where
  | error
  | warning
  | info
  | success
deriving DecidableEq

/-- One emitted log line: severity plus formatted text. -/
structure LogRecord where
  level : LogLevel
  text : String

/-- A candidate file: its name and the result of `ast.parse` on its text.
The parser is an external collaborator, so its outcome is an input:
`Except.error e` models `ast.parse` raising `SyntaxError` with detail `e`. -/
structure SourceFile where
  name : String
  parsed : Except String Module

/-- `check_file` (lines 19-82): the log lines it emits and its boolean
return value (`true` iff no issues were found). A `SyntaxError` is caught
at lines 31-33, logged at error level and turned into `false`. -/
def check_file (f : SourceFile) : List LogRecord × Bool :=
  match f.parsed with
  | .error e =>
      ([⟨LogLevel.error, "Syntax error in " ++ f.name ++ ": " ++ e⟩], false)
  | .ok tree =>
      let issues := check_file_issues tree
      if issues.isEmpty then
        ([⟨LogLevel.success, f.name ++ " - no obvious top-level side effects"⟩],
         true)
      else
        (⟨LogLevel.warning, "Potential issues in " ++ f.name ++ ":"⟩ ::
           issues.map (fun issue => ⟨LogLevel.warning, "  - " ++ issue⟩) ++
           [⟨LogLevel.info,
             "Airflow best practice: Avoid top-level code that connects to DBs or APIs"⟩],
         false)

/-- The resolved target of `main`: a regular file, a directory with the
files `target.rglob("*.py")` found beneath it, or a missing path. -/
inductive Target where
  | file (f : SourceFile)
  | dir (path : String) (files : List SourceFile)
  | notFound (path : String)

/-- The loop body of `for py_file in python_files` (lines 108-110): append
the log output of `check_file` and clear `all_passed` on failure. -/
def dirStep (acc : List LogRecord × Bool) (f : SourceFile) :
    List LogRecord × Bool :=
  let c := check_file f
  (acc.1 ++ c.1, if c.2 then acc.2 else false)

/-- `main` after argument parsing (lines 97-115): dispatch on the target,
returning the emitted log lines and the exit code. -/
def runTarget (target : Target) : List LogRecord × Nat :=
  match target with
  | .file f =>
      let c := check_file f
      (c.1, if c.2 then 0 else 1)
  | .dir path files =>
      if files.isEmpty then
        ([⟨LogLevel.warning, "No Python files found in " ++ path⟩], 0)
      else
        let r := files.foldl dirStep ([], true)
        (r.1, if r.2 then 0 else 1)
  | .notFound path =>
      ([⟨LogLevel.error, "Path not found: " ++ path⟩], 1)

/-- `main` (lines 85-115): `args` are the command-line arguments after the
program name; `resolve` is the filesystem lookup of the first argument. -/
def main_run (args : List String) (resolve : String → Target) :
    List LogRecord × Nat :=
  match args with
  | [] =>
      ([⟨LogLevel.error,
         "Usage: validate_dag_integrity.py <path_to_python_file_or_directory>"⟩],
       1)
  | a :: _ => runTarget (resolve a)

/-! ### Per-constructor equations for `issuesForNode` -/

theorem issuesForNode_Import (n : Nat) : issuesForNode (Node.Import n) = [] := rfl

theorem issuesForNode_ImportFrom (n : Nat) :
    issuesForNode (Node.ImportFrom n) = [] := rfl

theorem issuesForNode_Assign (n : Nat) : issuesForNode (Node.Assign n) = [] := rfl

theorem issuesForNode_FunctionDef (n : Nat) (sub : List Node) :
    issuesForNode (Node.FunctionDef n sub) = [] := rfl

theorem issuesForNode_AsyncFunctionDef (n : Nat) (sub : List Node) :
    issuesForNode (Node.AsyncFunctionDef n sub) = [] := rfl

theorem issuesForNode_ClassDef (n : Nat) (sub : List Node) :
    issuesForNode (Node.ClassDef n sub) = [] := rfl

theorem issuesForNode_With (n : Nat) (sub : List Node) :
    issuesForNode (Node.With n sub) = [] := rfl

theorem issuesForNode_If (n : Nat) (sub : List Node) :
    issuesForNode (Node.If n sub) = [] := rfl

theorem issuesForNode_AugAssign (n : Nat) :
    issuesForNode (Node.AugAssign n) = [] := rfl

theorem issuesForNode_Expr (n : Nat) (v : Node) :
    issuesForNode (Node.Expr n v) =
      if v.isConstant then [] else [exprIssueMsg n] := by
  cases v <;> rfl

theorem issuesForNode_For (n : Nat) (sub : List Node) :
    issuesForNode (Node.For n sub) = [cfcIssueMsg (Node.For n sub)] := rfl

theorem issuesForNode_While (n : Nat) (sub : List Node) :
    issuesForNode (Node.While n sub) = [cfcIssueMsg (Node.While n sub)] := rfl

theorem issuesForNode_Try (n : Nat) (sub : List Node) :
    issuesForNode (Node.Try n sub) = [cfcIssueMsg (Node.Try n sub)] := rfl

/-! ### The loop accumulator as a flatten of per-node contributions -/

theorem foldl_append_flatten {α β : Type} (f : α → List β) (l : List α)
    (acc : List β) :
    l.foldl (fun r x => r ++ f x) acc = acc ++ (l.map f).flatten := by
  induction l generalizing acc with
  | nil => simp
  | cons x xs ih => simp [ih]

theorem check_file_issues_eq (body : List Node) :
    check_file_issues ⟨body⟩ = (body.map issuesForNode).flatten := by
  simpa using foldl_append_flatten issuesForNode body []

theorem issue_mem_check_file_issues {body : List Node} {x : Node} {s : String}
    (hx : x ∈ body) (hs : s ∈ issuesForNode x) :
    s ∈ check_file_issues ⟨body⟩ := by
  rw [check_file_issues_eq]
  exact List.mem_flatten.mpr ⟨issuesForNode x, List.mem_map_of_mem _ hx, hs⟩

/-! ### The directory loop -/

theorem dirFold_eq (files : List SourceFile) (logs : List LogRecord) (b : Bool) :
    files.foldl dirStep (logs, b) =
      (logs ++ (files.map fun f => (check_file f).1).flatten,
       b && files.all fun f => (check_file f).2) := by
  induction files generalizing logs b with
  | nil => simp
  | cons f fs ih =>
      cases hc : (check_file f).2 <;>
        simp [dirStep, hc, ih]

theorem runTarget_dir_eq (path : String) (files : List SourceFile)
    (h : files ≠ []) :
    runTarget (Target.dir path files) =
      ((files.map fun f => (check_file f).1).flatten,
       if files.all (fun f => (check_file f).2) then 0 else 1) := by
  have hne : files.isEmpty = false := by
    cases files with
    | nil => exact absurd rfl h
    | cons f fs => rfl
  simp [runTarget, hne, dirFold_eq]

/-! ### Message reshaping -/

theorem cfcIssueMsg_For (n : Nat) (sub : List Node) :
    cfcIssueMsg (Node.For n sub) =
      "Line " ++ toString n ++
        ": Top-level For found. Verify this is safe for the Scheduler." := by
  show "Line " ++ toString n ++ ": Top-level " ++ "For" ++
      " found. Verify this is safe for the Scheduler." = _
  simp only [String.append_assoc]
  rfl

theorem cfcIssueMsg_While (n : Nat) (sub : List Node) :
    cfcIssueMsg (Node.While n sub) =
      "Line " ++ toString n ++
        ": Top-level While found. Verify this is safe for the Scheduler." := by
  show "Line " ++ toString n ++ ": Top-level " ++ "While" ++
      " found. Verify this is safe for the Scheduler." = _
  simp only [String.append_assoc]
  rfl

theorem cfcIssueMsg_Try (n : Nat) (sub : List Node) :
    cfcIssueMsg (Node.Try n sub) =
      "Line " ++ toString n ++
        ": Top-level Try found. Verify this is safe for the Scheduler." := by
  show "Line " ++ toString n ++ ": Top-level " ++ "Try" ++
      " found. Verify this is safe for the Scheduler." = _
  simp only [String.append_assoc]
  rfl

/-! ### At most one issue per node -/

/-- The at-most-one issue a node contributes, as an `Option`. -/
def issueOfNode (node : Node) : Option String := (issuesForNode node).head?

theorem issuesForNode_eq_toList (node : Node) :
    issuesForNode node = (issueOfNode node).toList := by
  cases node
  case Expr n v => unfold issueOfNode; rw [issuesForNode_Expr]; split <;> rfl
  all_goals rfl

theorem flatten_map_toList {α β : Type} (g : α → Option β) (l : List α) :
    (l.map fun x => (g x).toList).flatten = l.filterMap g := by
  induction l with
  | nil => rfl
  | cons x xs ih => cases hx : g x <;> simp [hx, ih]

/-! ### Claims -/

/-- Claim C6: for every file containing top-level for, while, or try blocks,
the checker reports exactly one issue per such block, whose message carries
the 1-based line number of the block and a substring naming its specific
kind (For, While, Try); the full issue list is the in-order concatenation of
these per-statement contributions. -/
theorem C6_loop_and_try_blocks_flagged (body : List Node) (n : Nat)
    (sub : List Node) :
    issuesForNode (Node.For n sub) =
      ["Line " ++ toString n ++
        ": Top-level For found. Verify this is safe for the Scheduler."] ∧
    issuesForNode (Node.While n sub) =
      ["Line " ++ toString n ++
        ": Top-level While found. Verify this is safe for the Scheduler."] ∧
    issuesForNode (Node.Try n sub) =
      ["Line " ++ toString n ++
        ": Top-level Try found. Verify this is safe for the Scheduler."] ∧
    check_file_issues ⟨body⟩ = (body.map issuesForNode).flatten := by
  refine ⟨?_, ?_, ?_, check_file_issues_eq body⟩
  · rw [issuesForNode_For, cfcIssueMsg_For]
  · rw [issuesForNode_While, cfcIssueMsg_While]
  · rw [issuesForNode_Try, cfcIssueMsg_Try]

/-- Claim C7: statements nested inside function bodies, class bodies, or
context blocks are never inspected: the issues a definition or with-block
contributes do not depend on its body, and a file whose only top-level
construct is a function definition is clean whatever that definition
contains. -/
theorem C7_nested_statements_invisible (n : Nat) (sub sub2 : List Node)
    (name : String) :
    issuesForNode (Node.FunctionDef n sub) = issuesForNode (Node.FunctionDef n sub2) ∧
    issuesForNode (Node.AsyncFunctionDef n sub) = issuesForNode (Node.AsyncFunctionDef n sub2) ∧
    issuesForNode (Node.ClassDef n sub) = issuesForNode (Node.ClassDef n sub2) ∧
    issuesForNode (Node.With n sub) = issuesForNode (Node.With n sub2) ∧
    check_file_issues ⟨[Node.FunctionDef n sub]⟩ = [] ∧
    (check_file ⟨name, Except.ok ⟨[Node.FunctionDef n sub]⟩⟩).2 = true :=
  ⟨rfl, rfl, rfl, rfl, rfl, rfl⟩

/-- Claim C8: a directory containing zero .py files produces a
"no files found" warning and exit code 0. -/
theorem C8_empty_directory_success (path : String) :
    runTarget (Target.dir path []) =
      ([⟨LogLevel.warning, "No Python files found in " ++ path⟩], 0) := rfl

/-- Claim C9: the issue sequence of a successfully parsed file is ordered by
source position: it is the in-order concatenation of each top-level
statement's contribution, equivalently the in-order `filterMap` of the
at-most-one issue per statement. -/
theorem C9_issues_in_source_order (body : List Node) :
    check_file_issues ⟨body⟩ = (body.map issuesForNode).flatten ∧
    check_file_issues ⟨body⟩ = body.filterMap issueOfNode := by
  have hfun : issuesForNode = fun x => (issueOfNode x).toList :=
    funext issuesForNode_eq_toList
  refine ⟨check_file_issues_eq body, ?_⟩
  rw [check_file_issues_eq, hfun, flatten_map_toList]

/-- Claim C10: every top-level statement produces at most one issue: the two
flagging conditions (line 59: expression statement; line 66: Call, For,
While or Try node) are mutually exclusive on any single node, so no node is
ever flagged twice. -/
theorem C10_flag_conditions_mutually_exclusive (node : Node) :
    (node.isExprStmt && node.isCallForWhileTry) = false ∧
    (issuesForNode node).length ≤ 1 := by
  constructor
  · cases node <;> rfl
  · cases node
    case Expr n v => rw [issuesForNode_Expr]; split <;> simp
    all_goals simp [issuesForNode, Node.isImportOrFrom, Node.isAssign,
      Node.isDefStmt, Node.isConstExprStmt, Node.isWithStmt, Node.isExprStmt,
      Node.isCallForWhileTry, Node.isConstant]

/-! ### Allowed statements -/

/-- A node matched by one of the five `continue` guards (lines 39-56). -/
def allowedNode (node : Node) : Bool :=
  node.isImportOrFrom || node.isAssign || node.isDefStmt ||
    node.isConstExprStmt || node.isWithStmt

theorem allowed_no_issue {node : Node} (h : allowedNode node = true) :
    issuesForNode node = [] := by
  cases node
  case Expr n v =>
    have hv : v.isConstant = true := by
      simpa [allowedNode, Node.isImportOrFrom, Node.isAssign, Node.isDefStmt,
        Node.isConstExprStmt, Node.isWithStmt] using h
    rw [issuesForNode_Expr]
    simp [hv]
  all_goals
    simp_all [allowedNode, Node.isImportOrFrom, Node.isAssign, Node.isDefStmt,
      Node.isConstExprStmt, Node.isWithStmt, Node.isExprStmt,
      Node.isCallForWhileTry, Node.isConstant, issuesForNode]

theorem all_allowed_flatten_nil (body : List Node)
    (h : ∀ node ∈ body, allowedNode node = true) :
    (body.map issuesForNode).flatten = [] := by
  induction body with
  | nil => rfl
  | cons x xs ih =>
      rw [List.map_cons, List.flatten_cons,
        allowed_no_issue (h x (List.mem_cons_self x xs)), List.nil_append]
      exact ih fun node hn => h node (List.mem_cons_of_mem x hn)

/-- Claim C3: a file whose top-level statements are all imports, assignments,
function or class definitions, constant expression statements, or with
blocks produces zero issues and is classified clean. -/
theorem C3_allowed_statements_clean (body : List Node) (name : String)
    (h : ∀ node ∈ body, allowedNode node = true) :
    check_file_issues ⟨body⟩ = [] ∧
    (check_file ⟨name, Except.ok ⟨body⟩⟩).2 = true := by
  have hz : check_file_issues ⟨body⟩ = [] := by
    rw [check_file_issues_eq]
    exact all_allowed_flatten_nil body h
  exact ⟨hz, by simp [check_file, hz]⟩

/-- Concrete instance of claim C3: a file with an import, an assignment, a
function definition (with a call inside), a docstring-style constant
expression and a with-block is clean. -/
theorem C3_allowed_statements_clean_witness :
    (∀ node ∈ [Node.Import 1, Node.Assign 2,
        Node.FunctionDef 3 [Node.Expr 4 (Node.Call 4)],
        Node.Expr 5 (Node.Constant 5),
        Node.With 6 [Node.Expr 7 (Node.Call 7)]],
      allowedNode node = true) ∧
    (check_file_issues ⟨[Node.Import 1, Node.Assign 2,
        Node.FunctionDef 3 [Node.Expr 4 (Node.Call 4)],
        Node.Expr 5 (Node.Constant 5),
        Node.With 6 [Node.Expr 7 (Node.Call 7)]]⟩ = [] ∧
      (check_file ⟨"dag.py", Except.ok ⟨[Node.Import 1, Node.Assign 2,
        Node.FunctionDef 3 [Node.Expr 4 (Node.Call 4)],
        Node.Expr 5 (Node.Constant 5),
        Node.With 6 [Node.Expr 7 (Node.Call 7)]]⟩⟩).2 = true) :=
  ⟨by decide, C3_allowed_statements_clean _ "dag.py" (by decide)⟩

/-- Claim C2: a top-level bare call statement (an `Expr` statement whose
value is a `Call`) yields exactly one issue, whose message starts with the
1-based line number of the call; that issue appears in the file issue
list. -/
theorem C2_bare_call_single_issue (body : List Node) (n m : Nat)
    (h : Node.Expr n (Node.Call m) ∈ body) :
    issuesForNode (Node.Expr n (Node.Call m)) = [exprIssueMsg n] ∧
    (issuesForNode (Node.Expr n (Node.Call m))).length = 1 ∧
    exprIssueMsg n =
      ("Line " ++ toString n) ++
        ": Top-level expression found. Ensure this doesn\x27t perform I/O." ∧
    exprIssueMsg n ∈ check_file_issues ⟨body⟩ := by
  exact ⟨rfl, rfl, rfl,
    issue_mem_check_file_issues h (List.mem_singleton_self _)⟩

/-- Concrete instance of claim C2 for the one-line file `do_something()`. -/
theorem C2_bare_call_single_issue_witness :
    (Node.Expr 1 (Node.Call 1) ∈ [Node.Expr 1 (Node.Call 1)]) ∧
    (issuesForNode (Node.Expr 1 (Node.Call 1)) = [exprIssueMsg 1] ∧
     (issuesForNode (Node.Expr 1 (Node.Call 1))).length = 1 ∧
     exprIssueMsg 1 =
       ("Line " ++ toString 1) ++
         ": Top-level expression found. Ensure this doesn\x27t perform I/O." ∧
     exprIssueMsg 1 ∈ check_file_issues ⟨[Node.Expr 1 (Node.Call 1)]⟩) :=
  ⟨List.mem_singleton_self _,
   C2_bare_call_single_issue [Node.Expr 1 (Node.Call 1)] 1 1
     (List.mem_singleton_self _)⟩

/-- Claim C1 as stated is false on the code: for the one-line file
`do_something()` (an `Expr` statement whose value is a `Call`, which is how
the Python AST represents a bare top-level call), the checker produces the
generic expression message, and no "Verify this is safe for the Scheduler"
message, because `ast.Call` is an expression class and the line 66
`isinstance` arm never matches a statement node of `Module.body`. -/
theorem C1_counterexample :
    check_file_issues ⟨[Node.Expr 1 (Node.Call 1)]⟩ =
      ["Line 1: Top-level expression found. Ensure this doesn\x27t perform I/O."] ∧
    "Line 1: Top-level Call found. Verify this is safe for the Scheduler." ∉
      check_file_issues ⟨[Node.Expr 1 (Node.Call 1)]⟩ :=
  ⟨by decide, by decide⟩

/-- Claim C1 (amended): a top-level for-loop, while-loop, or try/except
block is flagged with the message "Top-level {kind} found. Verify this is
safe for the Scheduler." naming its kind; a bare top-level call, however,
contributes exactly the generic message "Top-level expression found. Ensure
this doesn't perform I/O." instead, since the Python AST represents it as an
expression statement. -/
theorem C1_amended_kind_messages (body : List Node) (nf nw nt nc m : Nat)
    (sf sw st : List Node) :
    (Node.For nf sf ∈ body →
      ("Line " ++ toString nf ++
        ": Top-level For found. Verify this is safe for the Scheduler.") ∈
        check_file_issues ⟨body⟩) ∧
    (Node.While nw sw ∈ body →
      ("Line " ++ toString nw ++
        ": Top-level While found. Verify this is safe for the Scheduler.") ∈
        check_file_issues ⟨body⟩) ∧
    (Node.Try nt st ∈ body →
      ("Line " ++ toString nt ++
        ": Top-level Try found. Verify this is safe for the Scheduler.") ∈
        check_file_issues ⟨body⟩) ∧
    (Node.Expr nc (Node.Call m) ∈ body →
      issuesForNode (Node.Expr nc (Node.Call m)) = [exprIssueMsg nc] ∧
      exprIssueMsg nc ∈ check_file_issues ⟨body⟩) := by
  refine ⟨fun h => ?_, fun h => ?_, fun h => ?_,
    fun h => ⟨rfl, issue_mem_check_file_issues h (List.mem_singleton_self _)⟩⟩
  · have hm := issue_mem_check_file_issues h
      (List.mem_singleton_self (cfcIssueMsg (Node.For nf sf)))
    rwa [cfcIssueMsg_For] at hm
  · have hm := issue_mem_check_file_issues h
      (List.mem_singleton_self (cfcIssueMsg (Node.While nw sw)))
    rwa [cfcIssueMsg_While] at hm
  · have hm := issue_mem_check_file_issues h
      (List.mem_singleton_self (cfcIssueMsg (Node.Try nt st)))
    rwa [cfcIssueMsg_Try] at hm

/-- Concrete instance of the amended claim C1: a file with a for-loop,
a while-loop, a try block and a bare call at lines 1-4. -/
theorem C1_amended_kind_messages_witness :
    (Node.For 1 [] ∈ ([Node.For 1 [], Node.While 2 [], Node.Try 3 [],
        Node.Expr 4 (Node.Call 4)] : List Node)) ∧
    ("Line 1: Top-level For found. Verify this is safe for the Scheduler.") ∈
      check_file_issues ⟨[Node.For 1 [], Node.While 2 [], Node.Try 3 [],
        Node.Expr 4 (Node.Call 4)]⟩ ∧
    ("Line 2: Top-level While found. Verify this is safe for the Scheduler.") ∈
      check_file_issues ⟨[Node.For 1 [], Node.While 2 [], Node.Try 3 [],
        Node.Expr 4 (Node.Call 4)]⟩ ∧
    ("Line 3: Top-level Try found. Verify this is safe for the Scheduler.") ∈
      check_file_issues ⟨[Node.For 1 [], Node.While 2 [], Node.Try 3 [],
        Node.Expr 4 (Node.Call 4)]⟩ ∧
    exprIssueMsg 4 ∈
      check_file_issues ⟨[Node.For 1 [], Node.While 2 [], Node.Try 3 [],
        Node.Expr 4 (Node.Call 4)]⟩ := by
  have h1 : Node.For 1 [] ∈ ([Node.For 1 [], Node.While 2 [], Node.Try 3 [],
      Node.Expr 4 (Node.Call 4)] : List Node) := List.mem_cons_self _ _
  have h2 : Node.While 2 [] ∈ ([Node.For 1 [], Node.While 2 [], Node.Try 3 [],
      Node.Expr 4 (Node.Call 4)] : List Node) :=
    List.mem_cons_of_mem _ (List.mem_cons_self _ _)
  have h3 : Node.Try 3 [] ∈ ([Node.For 1 [], Node.While 2 [], Node.Try 3 [],
      Node.Expr 4 (Node.Call 4)] : List Node) :=
    List.mem_cons_of_mem _ (List.mem_cons_of_mem _ (List.mem_cons_self _ _))
  have h4 : Node.Expr 4 (Node.Call 4) ∈ ([Node.For 1 [], Node.While 2 [],
      Node.Try 3 [], Node.Expr 4 (Node.Call 4)] : List Node) :=
    List.mem_cons_of_mem _ (List.mem_cons_of_mem _
      (List.mem_cons_of_mem _ (List.mem_cons_self _ _)))
  exact ⟨h1,
    (C1_amended_kind_messages _ 1 2 3 4 4 [] [] []).1 h1,
    (C1_amended_kind_messages _ 1 2 3 4 4 [] [] []).2.1 h2,
    (C1_amended_kind_messages _ 1 2 3 4 4 [] [] []).2.2.1 h3,
    ((C1_amended_kind_messages _ 1 2 3 4 4 [] [] []).2.2.2 h4).2⟩

/-- Claim C4: for a directory target with at least one .py file, the exit
status is 0 if and only if every processed file is clean; otherwise it is 1;
and the emitted output is the concatenation of every file's per-file output,
so all files are processed with no short-circuit on first failure. -/
theorem C4_directory_aggregate (path : String) (files : List SourceFile)
    (h : files ≠ []) :
    ((runTarget (Target.dir path files)).2 = 0 ↔
      ∀ f ∈ files, (check_file f).2 = true) ∧
    ((runTarget (Target.dir path files)).2 = 0 ∨
      (runTarget (Target.dir path files)).2 = 1) ∧
    (runTarget (Target.dir path files)).1 =
      (files.map fun f => (check_file f).1).flatten := by
  rw [runTarget_dir_eq path files h]
  refine ⟨?_, ?_, rfl⟩
  · by_cases hall : files.all (fun f => (check_file f).2) = true
    · simp only [hall, if_true]
      simp only [true_iff, eq_self_iff_true]
      exact List.all_eq_true.mp hall
    · have hnall : ¬ ∀ f ∈ files, (check_file f).2 = true :=
        fun hc => hall (List.all_eq_true.mpr hc)
      simp [hall, hnall]
  · by_cases hall : files.all (fun f => (check_file f).2) = true <;>
      simp [hall]

/-- Concrete instance of claim C4: a directory with one clean file and one
flagged file exits 1, and both files appear in the output. -/
theorem C4_directory_aggregate_witness :
    (([⟨"clean.py", Except.ok ⟨[Node.Import 1]⟩⟩,
       ⟨"bad.py", Except.ok ⟨[Node.Expr 1 (Node.Call 1)]⟩⟩] :
        List SourceFile) ≠ []) ∧
    (((runTarget (Target.dir "dags"
        [⟨"clean.py", Except.ok ⟨[Node.Import 1]⟩⟩,
         ⟨"bad.py", Except.ok ⟨[Node.Expr 1 (Node.Call 1)]⟩⟩])).2 = 0 ↔
      ∀ f ∈ ([⟨"clean.py", Except.ok ⟨[Node.Import 1]⟩⟩,
         ⟨"bad.py", Except.ok ⟨[Node.Expr 1 (Node.Call 1)]⟩⟩] :
          List SourceFile), (check_file f).2 = true) ∧
     ((runTarget (Target.dir "dags"
        [⟨"clean.py", Except.ok ⟨[Node.Import 1]⟩⟩,
         ⟨"bad.py", Except.ok ⟨[Node.Expr 1 (Node.Call 1)]⟩⟩])).2 = 0 ∨
      (runTarget (Target.dir "dags"
        [⟨"clean.py", Except.ok ⟨[Node.Import 1]⟩⟩,
         ⟨"bad.py", Except.ok ⟨[Node.Expr 1 (Node.Call 1)]⟩⟩])).2 = 1) ∧
     (runTarget (Target.dir "dags"
        [⟨"clean.py", Except.ok ⟨[Node.Import 1]⟩⟩,
         ⟨"bad.py", Except.ok ⟨[Node.Expr 1 (Node.Call 1)]⟩⟩])).1 =
       (([⟨"clean.py", Except.ok ⟨[Node.Import 1]⟩⟩,
          ⟨"bad.py", Except.ok ⟨[Node.Expr 1 (Node.Call 1)]⟩⟩] :
           List SourceFile).map fun f => (check_file f).1).flatten) :=
  ⟨List.cons_ne_nil _ _,
   C4_directory_aggregate "dags" _ (List.cons_ne_nil _ _)⟩

/-- Claim C5: a syntactically invalid file never escapes the per-file
boundary: `check_file` returns `false` for it, reporting a single
error-level record (a distinct message class from the warning-level records
of flagged files); in a directory run containing such a file, every other
file before and after it is still processed and the run exits 1. -/
theorem C5_syntax_error_contained (pre post : List SourceFile)
    (name e path : String) :
    (check_file ⟨name, Except.error e⟩).2 = false ∧
    (check_file ⟨name, Except.error e⟩).1 =
      [⟨LogLevel.error, "Syntax error in " ++ name ++ ": " ++ e⟩] ∧
    (∀ r ∈ (check_file ⟨name, Except.error e⟩).1,
      r.level = LogLevel.error ∧ r.level ≠ LogLevel.warning) ∧
    (runTarget (Target.dir path
      (pre ++ (⟨name, Except.error e⟩ : SourceFile) :: post))).2 = 1 ∧
    (runTarget (Target.dir path
      (pre ++ (⟨name, Except.error e⟩ : SourceFile) :: post))).1 =
      ((pre ++ (⟨name, Except.error e⟩ : SourceFile) :: post).map
        fun f => (check_file f).1).flatten := by
  have hne : (pre ++ (⟨name, Except.error e⟩ : SourceFile) :: post) ≠ [] := by
    simp
  have hall : (pre ++ (⟨name, Except.error e⟩ : SourceFile) :: post).all
      (fun f => (check_file f).2) = false := by
    cases hca : (pre ++ (⟨name, Except.error e⟩ : SourceFile) :: post).all
        (fun f => (check_file f).2) with
    | false => rfl
    | true =>
        have hbad := List.all_eq_true.mp hca ⟨name, Except.error e⟩
          (List.mem_append.mpr (Or.inr (List.mem_cons_self _ _)))
        simp [check_file] at hbad
  refine ⟨rfl, rfl, ?_, ?_, ?_⟩
  · intro r hr
    rw [List.mem_singleton.mp hr]
    exact ⟨rfl, fun hcontra => nomatch hcontra⟩
  · rw [runTarget_dir_eq _ _ hne]
    simp [hall]
  · rw [runTarget_dir_eq _ _ hne]

end ValidateDagIntegrity
